import Mathlib

/-!
Verification development for the mock-server repository: a synthetic JSON
test-data generator (Express app).  The definitions below are a shallow
embedding of the JavaScript sources:

* `src/utils/json_generator.js`   — value pools, `generateRecord`,
  `generateRecords`, `generateJSON`;
* `src/utils/json_structure.js`   — the nine document shapes
  (`applyStructure`), the JSONPath table, and the streaming
  prefix/suffix strings;
* `src/utils/json_streaming_ndjson.js` (concatenated sources) —
  `supportsStreaming` and the chunked `streamJSON` encoder;
* `src/app.js`                    — `getMaxConcurrentForSize`, the
  admission middleware, and the `/json` route dispatch.

Modelling conventions: JavaScript numbers are embedded as `ℚ` where
fractional values can reach the code (query-string sizes) and as `Nat`
where the code only ever sees non-negative integers (indices, counters).
`Math.random()` draws are passed in explicitly through a `Draws` record,
so random mode is a function of the drawn values.  Serialized byte
lengths (`Buffer.byteLength(JSON.stringify r)`) depend on JavaScript
float formatting, so the series-building loop is parameterized by a
`measure : Nat → Nat` oracle giving the serialized size of the record at
each index; `measure 0` plays the role of `avgRecordSize`.
-/

set_option autoImplicit false

/-- JSON values, as produced by the generator.  Object fields are an
ordered association list, matching JavaScript object insertion order
(which `JSON.stringify` preserves). -/
inductive Json where
  | null
  | bool (b : Bool)
  | num (q : ℚ)
  | str (s : String)
  | arr (items : List Json)
  | obj (fields : List (String × Json))

/-- Allocation provenance of a sub-value of a record.  The source
distinguishes values built with a fresh literal on every call
(`object_metadata: { ... }`) from values returned by reference out of a
frozen process-lifetime pool (`array_tags: TAG_ARRAYS[k]`).  `val` is the
actual content in both cases; `poolRef` additionally carries the pool
index used. -/
inductive Alloc (α : Type) where
  | fresh (val : α)
  | poolRef (idx : Nat) (val : α)
deriving DecidableEq

/-- Content of an `Alloc`, whatever its provenance. -/
def Alloc.val {α : Type} : Alloc α → α
  | .fresh v => v
  | .poolRef _ v => v

/-- True exactly when the value was built fresh on this call rather than
returned by reference from a pool. -/
def Alloc.isFresh {α : Type} : Alloc α → Bool
  | .fresh _ => true
  | .poolRef _ _ => false

/-- The nested `object_metadata` value of a record
(`json_generator.js`, `generateRecord`). -/
structure RecordMeta where
  created_by : String
  priority : Nat
  verified : Bool
deriving DecidableEq

/-- One generated record with the fixed 14-field schema of
`generateRecord` in `json_generator.js`.  Field order here is the
insertion order of the source object literal, which is the order
`JSON.stringify` and `Object.values` observe. -/
structure Record where
  int_id : Nat
  string_name : String
  decimal_amount : ℚ
  bool_active : Bool
  string_remark : String
  string_category : String
  string_timestamp : String
  int_count : Nat
  decimal_rate : ℚ
  string_status : String
  object_metadata : Alloc RecordMeta
  array_tags : Alloc (List String)
  string_location : String
  string_description : String
deriving DecidableEq

/-- `STRING_NAMES` pool (20 entries) from `json_generator.js`. -/
def stringNames : List String :=
  [ "Johnson, Smith, and Jones Co.",
    "Sam \"Mad Dog\" Smith",
    "Barney & Company",
    "Johnson\x27s Automotive",
    "O\x27Reilly & Sons, Inc.",
    "The \"Best\" Company, Ltd.",
    "Smith & Wesson, LLC",
    "Acme Food Inc.",
    "Price: $1,234.56 (50% off!)",
    "Email: contact@example.com | Phone: (555) 123-4567",
    "Line1\nLine2\nLine3",
    "Tab\tSeparated\tValues",
    "Symbols: @#$%^&*()_+-=[]\x7b\x7d|\\;:\x27\",.<>/?",
    "Unicode: café, naïve, résumé, 你好",
    "Mixed: \"It\x27s 100% true!\" she said, & left.",
    "Backslash\\Forward/Pipe|Tilde~",
    "Brackets: [array], \x7bobject\x7d, <tag>",
    "Quotes: \x27single\x27 \"double\" \x60backtick\x60",
    "Math: 2+2=4, x<5, y>3, a≤b, c≥d",
    "Newline\r\nCarriage\rReturn" ]

/-- `STRING_REMARKS` pool (20 entries) from `json_generator.js`. -/
def stringRemarks : List String :=
  [ "Pays on time",
    "",
    "Great to work with\nand always pays with cash.",
    "Needs follow-up",
    "",
    "VIP customer",
    "Contact: john@example.com",
    "Note: \"Handle with care\" - they said.",
    "Multi\nLine\nComment\nWith\nBreaks",
    "Special chars: ~!@#$%^&*()_+\x60-=\x7b\x7d|[]\\:\";\x27<>?,./\t",
    "JSON-like: \x7b\"key\": \"value\", \"array\": [1,2,3]\x7d",
    "SQL-like: SELECT * FROM users WHERE id=1; DROP TABLE users;--",
    "HTML-like: <script>alert(\"XSS\")</script>",
    "Path: C:\\Users\\Admin\\Documents\\file.txt",
    "URL: https://example.com/path?param=value&other=123",
    "Emoji: 😀 🎉 ✨ 🚀 ⚠️",
    "Mixed: It\x27s \"complicated\" & requires 100% attention!",
    "Trailing spaces:   ",
    "   Leading spaces",
    "\tTab\tDelimited\tText\t" ]

/-- `CATEGORIES` pool from `json_generator.js`. -/
def categoriesPool : List String :=
  ["Electronics", "Clothing", "Books", "Home & Garden", "Sports"]

/-- `CITIES` pool from `json_generator.js`. -/
def citiesPool : List String :=
  ["New York", "Los Angeles", "Chicago", "Houston", "Phoenix"]

/-- `LEVELS` pool from `json_generator.js`. -/
def levelsPool : List String :=
  ["INFO", "WARN", "ERROR", "DEBUG"]

/-- `TAG_ARRAYS` pool from `json_generator.js`: four frozen,
process-lifetime tag arrays that `generateRecord` hands out by
reference. -/
def tagArraysPool : List (List String) :=
  [ ["tag1"],
    ["tag1", "tag2"],
    ["tag1", "tag2", "tag3"],
    ["tag1", "tag2", "tag3", "important"] ]

/-- `USER_STRINGS[i] = "user" ++ (i+1)` for `i < 10`
(`json_generator.js`). -/
def userString (i : Nat) : String :=
  "user" ++ toString (i + 1)

/-- `DESCRIPTIONS[i]`, the pregenerated description template of
`json_generator.js` (backtick template literal in the source). -/
def descriptionFor (i : Nat) : String :=
  "Record #" ++ toString (i + 1) ++
    ": Contains \"quotes\", commas, and special chars like @#$%^&*(). May also have\nnewlines and tabs\there."

/-- JavaScript `x % m` for non-negative `x` and positive `m`
(floating-point remainder; for the operands used here it agrees with the
exact rational remainder). -/
def fmodQ (x m : ℚ) : ℚ :=
  x - m * ((x / m).floor : ℚ)

/-- `parseFloat(q.toFixed(2))`: round to two decimal places.  The source
computes this on binary floats; here it is modelled with exact rational
half-up rounding.  No claim below depends on the exact rounded values. -/
def round2 (q : ℚ) : ℚ :=
  ((q * 100 + 1/2).floor : ℚ) / 100

/-- `DECIMAL_AMOUNTS[i] = parseFloat(((i * 123.45) % 10000).toFixed(2))`
(`json_generator.js`). -/
def decimalAmounts (i : Nat) : ℚ :=
  round2 (fmodQ ((i : ℚ) * (12345/100)) 10000)

/-- `DECIMAL_RATES[i] = parseFloat(((i * 7.89) % 100).toFixed(2))`
(`json_generator.js`). -/
def decimalRates (i : Nat) : ℚ :=
  round2 (fmodQ ((i : ℚ) * (789/100)) 100)

/-- `MAX_SIZE_KB = 1024 * 1024` from `json_generator.js`. -/
def maxSizeKB : ℚ := 1024 * 1024

/-- The values produced by the `Math.random()` calls a single
`generateRecord(index, true)` invocation would make, each conceptually
in `[0, 1)`.  Passing them explicitly makes the call a function of the
draws; deterministic mode never reads them. -/
structure Draws where
  amount : ℚ
  active : ℚ
  count : ℚ
  rate : ℚ
  priority : ℚ
  verified : ℚ
  tagIdx : ℚ
deriving DecidableEq

/-- `generateRecord(index, useRandom)` from `json_generator.js`.

`ts` stands for the `TIMESTAMPS` pool: 100 ISO strings drawn randomly
once at process start, hence a parameter of the embedding rather than a
constant (determinism holds for a fixed pool, i.e. within one process
lifetime).  `d` supplies the `Math.random()` draws used when
`useRandom` is true. -/
def generateRecord (ts : Nat → String) (index : Nat) (useRandom : Bool)
    (d : Draws) : Record where
  int_id := index + 1
  string_name := stringNames.getD (index % 20) ""
  decimal_amount :=
    if useRandom then round2 (d.amount * 10000) else decimalAmounts (index % 1000)
  bool_active :=
    if useRandom then decide ((1/2 : ℚ) < d.active) else decide (index % 3 ≠ 0)
  string_remark := stringRemarks.getD (index % 20) ""
  string_category := categoriesPool.getD (index % 5) ""
  string_timestamp := ts (index % 100)
  int_count :=
    if useRandom then (d.count * 1000).floor.toNat else (index * 17) % 1000
  decimal_rate :=
    if useRandom then round2 (d.rate * 100) else decimalRates (index % 1000)
  string_status := levelsPool.getD (index % 4) ""
  object_metadata :=
    .fresh
      { created_by := userString (index % 10)
        priority := if useRandom then (d.priority * 5).floor.toNat + 1 else index % 5 + 1
        verified := if useRandom then decide ((3/10 : ℚ) < d.verified) else decide (index % 7 < 5) }
  array_tags :=
    let k := if useRandom then (d.tagIdx * 4).floor.toNat else index % 4
    .poolRef k (tagArraysPool.getD k [])
  string_location := citiesPool.getD (index % 5) ""
  string_description := descriptionFor (index % 100)

/-- The 14 field names of a record, in source insertion order
(`Object.keys` order used by `applyStructure4` and `applyStructure5`). -/
def recordKeys : List String :=
  [ "int_id", "string_name", "decimal_amount", "bool_active",
    "string_remark", "string_category", "string_timestamp", "int_count",
    "decimal_rate", "string_status", "object_metadata", "array_tags",
    "string_location", "string_description" ]

/-- JSON value of the nested `object_metadata` object. -/
def RecordMeta.toJson (m : RecordMeta) : Json :=
  .obj [ ("created_by", .str m.created_by),
         ("priority", .num m.priority),
         ("verified", .bool m.verified) ]

/-- The record field values in the canonical field order
(`Object.values(record)`, consumed positionally by shape 4). -/
def Record.valuesList (r : Record) : List Json :=
  [ .num r.int_id,
    .str r.string_name,
    .num r.decimal_amount,
    .bool r.bool_active,
    .str r.string_remark,
    .str r.string_category,
    .str r.string_timestamp,
    .num r.int_count,
    .num r.decimal_rate,
    .str r.string_status,
    r.object_metadata.val.toJson,
    .arr (r.array_tags.val.map .str),
    .str r.string_location,
    .str r.string_description ]

/-- A record as a JSON object: the 14 keys paired with the values, in
insertion order. -/
def Record.toJson (r : Record) : Json :=
  .obj (recordKeys.zip r.valuesList)

/-- `JSONPATH_MAP` from `json_structure.js`. -/
def jsonPathMap (structureId : Nat) : String :=
  match structureId with
  | 1 => "$[*]"
  | 2 => "$.data[*]"
  | 3 => "$.race.entries[*]"
  | 4 => "$[*]"
  | 5 => "N/A (columnar format - transpose required)"
  | 6 => "$.data[*]"
  | 7 => "$.data[*]"
  | 8 => "$.groups.*[*]"
  | 9 => "$.api.response.payload.records[*]"
  | _ => "$[*]"

/-- Grouping key used by `applyStructure8`: the first truthy value among
`string_category`, `string_location`, `string_status` (all non-empty in
generated records), else a synthetic bucket of ten records by position. -/
def groupKeyFor (i : Nat) (r : Record) : String :=
  if r.string_category ≠ "" then r.string_category
  else if r.string_location ≠ "" then r.string_location
  else if r.string_status ≠ "" then r.string_status
  else "group_" ++ toString (i / 10 + 1)

/-- Append a record to its group, preserving first-insertion key order
(JavaScript object property order in `applyStructure8`). -/
def insertGroup (groups : List (String × List Record)) (key : String)
    (r : Record) : List (String × List Record) :=
  match groups with
  | [] => [(key, [r])]
  | (k, rs) :: rest =>
      if k = key then (k, rs ++ [r]) :: rest
      else (k, rs) :: insertGroup rest key r

/-- The grouping pass of `applyStructure8`, carrying the running record
position for the synthetic-bucket fallback. -/
def buildGroupsGo (i : Nat) (records : List Record)
    (groups : List (String × List Record)) : List (String × List Record) :=
  match records with
  | [] => groups
  | r :: rest => buildGroupsGo (i + 1) rest (insertGroup groups (groupKeyFor i r) r)

/-- Groups built by `applyStructure8` from a record series. -/
def buildGroups (records : List Record) : List (String × List Record) :=
  buildGroupsGo 0 records []

/-- One column of `applyStructure5`: the values of field `k` across the
series, in series order. -/
def columnFor (records : List Record) (k : Nat) : Json :=
  .arr (records.map (fun r => r.valuesList.getD k .null))

/-- `applyStructure(records, structure)` from `json_structure.js`.

`now` stands for `getCachedTimestamp()` (wall-clock dependent), a
parameter of the embedding.  Shapes 4 and 5 read `Object.keys` from the
first record; since every `Record` carries the same fixed schema, the
keys are always `recordKeys`. -/
def applyStructure (now : String) (records : List Record)
    (structureId : Nat) : Json :=
  match structureId with
  | 2 => .obj [("data", .arr (records.map Record.toJson))]
  | 3 => .obj [("race", .obj [("entries", .arr (records.map Record.toJson))])]
  | 4 =>
      match records with
      | [] => .arr []
      | _ => .arr (records.map (fun r => .arr r.valuesList))
  | 5 =>
      match records with
      | [] => .obj []
      | _ => .obj ((List.range recordKeys.length).map
              (fun k => (recordKeys.getD k "", columnFor records k)))
  | 6 => .obj
      [ ("metadata", .obj
          [ ("timestamp", .str now),
            ("version", .str "1.0"),
            ("record_count", .num records.length),
            ("generated_by", .str "mock-server") ]),
        ("data", .arr (records.map Record.toJson)) ]
  | 7 => .obj
      [ ("data", .arr (records.map Record.toJson)),
        ("links", .obj
          [ ("self", .str "/json"),
            ("first", .str "/json?page=1"),
            ("last", .str "/json?page=1"),
            ("prev", .null),
            ("next", .null) ]),
        ("meta", .obj
          [ ("current_page", .num 1),
            ("from", .num 1),
            ("last_page", .num 1),
            ("per_page", .num records.length),
            ("to", .num records.length),
            ("total", .num records.length),
            ("path", .str "/json") ]) ]
  | 8 =>
      let groups := buildGroups records
      .obj
        [ ("groups", .obj (groups.map (fun g => (g.1, Json.arr (g.2.map Record.toJson))))),
          ("summary", .obj
            [ ("total_records", .num records.length),
              ("group_count", .num groups.length),
              ("timestamp", .str now) ]) ]
  | 9 => .obj
      [ ("api", .obj
          [ ("version", .str "v1"),
            ("endpoint", .str "/json"),
            ("timestamp", .str now),
            ("response", .obj
              [ ("status", .str "ok"),
                ("code", .num 200),
                ("payload", .obj
                  [ ("records", .arr (records.map Record.toJson)),
                    ("metadata", .obj
                      [ ("count", .num records.length),
                        ("format", .str "json") ]) ]) ]) ]) ]
  | _ => .arr (records.map Record.toJson)

/-- Elements of a JSON array; empty for non-arrays. -/
def Json.items : Json → List Json
  | .arr xs => xs
  | _ => []

/-- First field of a JSON object with the given key; `Json.null` for
non-objects or missing keys. -/
def Json.field (j : Json) (key : String) : Json :=
  match j with
  | .obj fs => (fs.lookup key).getD .null
  | _ => .null

/-- Record extraction according to the JSONPath expression the shape
declares in `jsonPathMap` (standard JSONPath semantics of those nine
concrete expressions; the extractor itself is a downstream consumer, not
repository code).  Shape 5 declares no JSONPath (`N/A`), so nothing is
extracted. -/
def extractByJSONPath (structureId : Nat) (doc : Json) : List Json :=
  match structureId with
  | 1 => doc.items
  | 2 => (doc.field "data").items
  | 3 => ((doc.field "race").field "entries").items
  | 4 => doc.items
  | 5 => []
  | 6 => (doc.field "data").items
  | 7 => (doc.field "data").items
  | 8 =>
      match doc.field "groups" with
      | .obj fs => fs.flatMap (fun f => f.2.items)
      | _ => []
  | 9 => ((((doc.field "api").field "response").field "payload").field "records").items
  | _ => doc.items

/-- `supportsStreaming(structure)` from the streaming utility: shapes 5
(columnar) and 8 (grouped) need the whole series in memory, all others
stream. -/
def supportsStreaming (structureId : Nat) : Bool :=
  structureId != 5 && structureId != 8

/-- `getMaxConcurrentForSize(sizeKB)` from `src/app.js`: the
size-tiered admission capacity. -/
def getMaxConcurrentForSize (sizeKB : ℚ) : Nat :=
  if sizeKB < 10240 then 10
  else if sizeKB < 30720 then 5
  else if sizeKB < 51200 then 3
  else if sizeKB < 102400 then 2
  else 5

/-- The diagnostics the admission middleware returns with its 503
response: `activeRequests`, `maxAllowed`, `requestSizeKB`
(`src/app.js`). -/
structure RejectionPayload where
  activeRequests : Nat
  maxAllowed : Nat
  requestSizeKB : ℚ
deriving DecidableEq

/-- The admission middleware of `src/app.js`: compare the in-flight
counter against the size tier; at or above capacity reject immediately
with the diagnostics payload, otherwise increment the counter and let
the request proceed. -/
def admitRequest (activeRequests : Nat) (sizeKB : ℚ) :
    RejectionPayload ⊕ Nat :=
  let maxForSize := getMaxConcurrentForSize sizeKB
  if activeRequests ≥ maxForSize then
    .inl { activeRequests := activeRequests, maxAllowed := maxForSize,
           requestSizeKB := sizeKB }
  else
    .inr (activeRequests + 1)

/-- `STREAMING_THRESHOLD_KB = 102400` from the `/json` route. -/
def streamingThresholdKB : ℚ := 102400

/-- Outcome of the `/json` route dispatch in `src/app.js`. -/
inductive JsonRouteResult where
  | invalidStructure
  | invalidRecordFormat
  | invalidSize
  | streamedResponse
  | wholeDocumentResponse
deriving DecidableEq

/-- The `/json` handler of `src/app.js` after query parsing: validate
`structure` (1–9), `record-format` (1–3) and `size`
(`sizeKB <= 0 || sizeKB > MAX_SIZE_KB` rejected), then stream when
`sizeKB > STREAMING_THRESHOLD_KB` and the shape supports streaming, else
generate the whole document in memory and send it. -/
def jsonRoute (structureId recordFormat : Nat) (sizeKB : ℚ) :
    JsonRouteResult :=
  if ¬ structureId ∈ [1, 2, 3, 4, 5, 6, 7, 8, 9] then .invalidStructure
  else if ¬ recordFormat ∈ [1, 2, 3] then .invalidRecordFormat
  else if sizeKB ≤ 0 ∨ sizeKB > maxSizeKB then .invalidSize
  else if sizeKB > streamingThresholdKB ∧ supportsStreaming structureId then
    .streamedResponse
  else
    .wholeDocumentResponse

/-- `Math.ceil((targetSize / avgRecordSize) * 1.05)` from
`generateRecords`, the estimated record count with 5% slack, in exact
arithmetic: `⌈21 t / (20 a)⌉` computed with natural division.  (The
source computes this on floats; for the sizes relevant here the values
agree.)  `avg = 0` cannot arise from a real serialized record. -/
def estimatedRecordCount (targetSize avg : Nat) : Nat :=
  (21 * targetSize + 20 * avg - 1) / (20 * avg)

/-- The `while` loop of `generateRecords` (`json_generator.js`),
returning the indices of the records it appends after record 0.

`fuel` carries the remaining iterations allowed by the
`recordCount < estimatedRecords` conjunct (`fuel = estimated − recordCount`
throughout).  Inside the body, the measured branch (`recordCount % 20
=== 0`) adds the measured size plus one, the other branch adds
`avgRecordSize + 1` (the comma byte); the source's early
`if (currentSize >= targetSize) break` after the increment is the
`[recordCount]` arm. -/
def generateRecordsGo (measure : Nat → Nat) (avg targetSize : Nat) :
    Nat → Nat → Nat → List Nat
  | 0, _, _ => []
  | fuel + 1, currentSize, recordCount =>
      if currentSize < targetSize then
        let inc :=
          if recordCount % 20 = 0 then measure recordCount + 1 else avg + 1
        let newSize := currentSize + inc
        if targetSize ≤ newSize then [recordCount]
        else recordCount :: generateRecordsGo measure avg targetSize fuel newSize (recordCount + 1)
      else []

/-- `generateRecords(targetSizeKB)` at the level of generated record
indices: record 0 is always produced and measured (`avgRecordSize =
measure 0`), the running total starts at `avgRecordSize + 2` (array
brackets), and the loop starts at index 1 with the estimated count as
its bound.  `targetSize` is in bytes (`targetSizeKB * 1024`). -/
def generateRecordsIndices (measure : Nat → Nat) (targetSize : Nat) : List Nat :=
  let avg := measure 0
  let estimated := estimatedRecordCount targetSize avg
  0 :: generateRecordsGo measure avg targetSize (estimated - 1) (avg + 2) 1

/-- The record series `generateRecords` returns (already truncated to
the records actually generated): the record factory applied to each
generated index.  `ds` supplies the random draws per index. -/
def generateRecordsModel (ts : Nat → String) (useRandom : Bool)
    (ds : Nat → Draws) (measure : Nat → Nat) (targetSize : Nat) : List Record :=
  (generateRecordsIndices measure targetSize).map
    (fun i => generateRecord ts i useRandom (ds i))

/-- The SeriesBuilder loop exactly as claim C4 states it: every 20th
record accrues the exactly measured serialized size (with no separator
byte), the others accrue `avgSize + 1`; the loop stops as soon as the
running total reaches the target or the estimated count is reached. -/
def claimedSeriesGo (measure : Nat → Nat) (avg targetSize : Nat) :
    Nat → Nat → Nat → List Nat
  | 0, _, _ => []
  | fuel + 1, currentSize, recordCount =>
      if currentSize < targetSize then
        let inc :=
          if recordCount % 20 = 0 then measure recordCount else avg + 1
        recordCount :: claimedSeriesGo measure avg targetSize fuel (currentSize + inc) (recordCount + 1)
      else []

/-- The series of claim C4 as stated (measured accrual without the
separator byte), at the level of indices. -/
def claimedSeriesIndices (measure : Nat → Nat) (targetSize : Nat) : List Nat :=
  let avg := measure 0
  let estimated := estimatedRecordCount targetSize avg
  0 :: claimedSeriesGo measure avg targetSize (estimated - 1) (avg + 2) 1

/-- The series of claim C4 as stated, as records. -/
def claimedSeriesModel (ts : Nat → String) (useRandom : Bool)
    (ds : Nat → Draws) (measure : Nat → Nat) (targetSize : Nat) : List Record :=
  (claimedSeriesIndices measure targetSize).map
    (fun i => generateRecord ts i useRandom (ds i))

/-- The amended SeriesBuilder loop: identical to the claim's account
except that every 20th record accrues its exactly measured serialized
size **plus one separator byte**, matching `actualSize = byteLength + 1`
in the source. -/
def amendedSeriesGo (measure : Nat → Nat) (avg targetSize : Nat) :
    Nat → Nat → Nat → List Nat
  | 0, _, _ => []
  | fuel + 1, currentSize, recordCount =>
      if currentSize < targetSize then
        let inc :=
          if recordCount % 20 = 0 then measure recordCount + 1 else avg + 1
        recordCount :: amendedSeriesGo measure avg targetSize fuel (currentSize + inc) (recordCount + 1)
      else []

/-- The amended claim-C4 series at the level of indices. -/
def amendedSeriesIndices (measure : Nat → Nat) (targetSize : Nat) : List Nat :=
  let avg := measure 0
  let estimated := estimatedRecordCount targetSize avg
  0 :: amendedSeriesGo measure avg targetSize (estimated - 1) (avg + 2) 1

/-- The amended claim-C4 series, as records. -/
def amendedSeriesModel (ts : Nat → String) (useRandom : Bool)
    (ds : Nat → Draws) (measure : Nat → Nat) (targetSize : Nat) : List Record :=
  (amendedSeriesIndices measure targetSize).map
    (fun i => generateRecord ts i useRandom (ds i))

/-- The chunking loop of `streamJSON`: while `totalGenerated < sizeKB`,
take `currentChunkSize = min(chunkSizeKB, sizeKB - totalGenerated)`,
stop if it drops below one, and advance `totalGenerated` by the chunk's
requested size.  `fuel` bounds the iterations (the total grows by at
least 1 KB per step, so `sizeKB + 1` suffices). -/
def streamChunksGo (sizeKB chunkKB : Nat) : Nat → Nat → List Nat
  | 0, _ => []
  | fuel + 1, totalGenerated =>
      if totalGenerated < sizeKB then
        let c := min chunkKB (sizeKB - totalGenerated)
        if c < 1 then []
        else c :: streamChunksGo sizeKB chunkKB fuel (totalGenerated + c)
      else []

/-- The sequence of sub-batch sizes (in KB) a `streamJSON` call
generates for a target of `sizeKB` with chunk budget `chunkKB`
(default 5120 in the source). -/
def streamChunks (sizeKB chunkKB : Nat) : List Nat :=
  streamChunksGo sizeKB chunkKB (sizeKB + 1) 0

/-- The `int_id` values emitted across a whole `streamJSON` stream, in
emission order: each sub-batch re-invokes `generateJSON`, whose
`generateRecords` starts again at index 0, and `generateRecord` sets
`int_id = index + 1`. -/
def streamedIntIds (measure : Nat → Nat) (sizeKB chunkKB : Nat) : List Nat :=
  (streamChunks sizeKB chunkKB).flatMap
    (fun c => (generateRecordsIndices measure (c * 1024)).map (· + 1))

/-- `getStructurePrefix(structure)` from `json_structure.js`: the
opening JSON written before the streamed records, `none` for the
non-streamable shapes 5 and 8.  `now` stands for
`getCachedTimestamp()`. -/
def getStructurePrefixText (now : String) (structureId : Nat) : Option String :=
  match structureId with
  | 1 => some "["
  | 2 => some "\x7b\"data\":["
  | 3 => some "\x7b\"race\":\x7b\"entries\":["
  | 4 => some "["
  | 5 => none
  | 6 => some ("\x7b\"metadata\":\x7b\"timestamp\":\"" ++ now ++
      "\",\"version\":\"1.0\",\"record_count\":0,\"generated_by\":\"mock-server\"\x7d,\"data\":[")
  | 7 => some "\x7b\"data\":["
  | 8 => none
  | 9 => some ("\x7b\"api\":\x7b\"version\":\"v1\",\"endpoint\":\"/json\",\"timestamp\":\"" ++ now ++
      "\",\"response\":\x7b\"status\":\"ok\",\"code\":200,\"payload\":\x7b\"records\":[")
  | _ => some "["

/-- `getStructureSuffix(structure, recordCount)` from
`json_structure.js`: the closing JSON written after the streamed
records, `none` for shapes 5 and 8. -/
def getStructureSuffixText (structureId recordCount : Nat) : Option String :=
  match structureId with
  | 1 => some "]"
  | 2 => some "]\x7d"
  | 3 => some "]\x7d\x7d"
  | 4 => some "]"
  | 5 => none
  | 6 => some "]\x7d"
  | 7 => some ("],\"links\":\x7b\"self\":\"/json\",\"first\":\"/json?page=1\",\"last\":\"/json?page=1\",\"prev\":null,\"next\":null\x7d,\"meta\":\x7b\"current_page\":1,\"from\":1,\"last_page\":1,\"per_page\":" ++
      toString recordCount ++ ",\"to\":" ++ toString recordCount ++ ",\"total\":" ++
      toString recordCount ++ ",\"path\":\"/json\"\x7d\x7d")
  | 8 => none
  | 9 => some ("],\"metadata\":\x7b\"count\":" ++ toString recordCount ++
      ",\"format\":\"json\"\x7d\x7d\x7d\x7d\x7d")
  | _ => some "]"

/-- One write `streamJSON` performs, abstracted to the events relevant
to the claims: the opening prefix, one record identified by its
`int_id` (serialized payload and separating commas elided), and the
closing suffix. -/
inductive StreamEvent where
  | opening (s : String)
  | record (intId : Nat)
  | closing (s : String)
deriving DecidableEq

/-- The write sequence of a `streamJSON(res, structure, _, sizeKB, _)`
call: throw (`none`) when the shape does not support streaming;
otherwise write the prefix, then every sub-batch's records in order,
then the suffix parameterized by the count of records written.

`connectedAt k` says whether the consumer is still connected when
sub-batch `k` starts.  The source registers no disconnect handler in
`streamJSON` (unlike `streamNDJSON`/`streamSSE`, which maintain an
`isStreaming` flag from `res.on("close")`), so the parameter is never
consulted: the write sequence is the same whatever the disconnect
schedule. -/
def streamJSONEvents (measure : Nat → Nat) (structureId : Nat)
    (now : String) (sizeKB chunkKB : Nat) (connectedAt : Nat → Bool) :
    Option (List StreamEvent) :=
  if supportsStreaming structureId = false then none
  else
    let ids := streamedIntIds measure sizeKB chunkKB
    some (.opening ((getStructurePrefixText now structureId).getD "[")
      :: ids.map .record
      ++ [.closing ((getStructureSuffixText structureId ids.length).getD "]")])

/-- A concrete stand-in for the startup-randomized `TIMESTAMPS` pool,
used for closed instances. -/
def ts0 : Nat → String := fun _ => "2024-06-01T00:00:00.000Z"

/-- A concrete draw vector (all zero), used for closed instances. -/
def d0 : Draws :=
  { amount := 0, active := 0, count := 0, rate := 0, priority := 0,
    verified := 0, tagIdx := 0 }

/-- Claim C1 (code_bug evidence): a request for shape 5 (columnar) or
shape 8 (grouped) whose size exceeds the streaming threshold of
102400 KB is not rejected by the `/json` route — `supportsStreaming`
is false for both shapes, so the dispatch falls into the
whole-document in-memory branch and serves the document. -/
theorem c1_nonstreamable_large_served_in_memory :
    jsonRoute 5 1 102401 = .wholeDocumentResponse ∧
    jsonRoute 8 1 204800 = .wholeDocumentResponse ∧
    supportsStreaming 5 = false ∧ supportsStreaming 8 = false := by
  refine ⟨?_, ?_, rfl, rfl⟩ <;>
    norm_num [jsonRoute, maxSizeKB, streamingThresholdKB, supportsStreaming]

/-- Whether a list of naturals is strictly increasing, checked
positionally. -/
def strictlyIncreasing : List Nat → Bool
  | [] => true
  | [_] => true
  | a :: b :: rest => a < b && strictlyIncreasing (b :: rest)

/-- Claim C2 (code_bug evidence): in a streamed document
(size 102401 KB > threshold, chunk budget 5120 KB, records of
2000000 bytes so that each 5120 KB sub-batch holds three records), the
emitted `int_id` sequence is not strictly increasing: every sub-batch
restarts at `int_id = 1`, so the value 1 is emitted once per sub-batch
(21 times) instead of once. -/
theorem c2_streamed_ids_restart_per_chunk :
    strictlyIncreasing (streamedIntIds (fun _ => 2000000) 102401 5120) = false ∧
    (streamedIntIds (fun _ => 2000000) 102401 5120).count 1 = 21 := by
  decide

/-- Claim C3 (code_bug evidence): the write sequence of `streamJSON` is
the same under every consumer-disconnect schedule — the loop never
observes a disconnect — and it always ends with the shape suffix, even
when the consumer is disconnected from the very start. -/
theorem c3_streamJSON_ignores_disconnect :
    ∀ connectedAt : Nat → Bool,
      streamJSONEvents (fun _ => 2000000) 1 "T" 102401 5120 connectedAt =
        streamJSONEvents (fun _ => 2000000) 1 "T" 102401 5120 (fun _ => true) ∧
      ((streamJSONEvents (fun _ => 2000000) 1 "T" 102401 5120 (fun _ => false)).getD []).getLast?
        = some (.closing "]") := by
  intro connectedAt
  exact ⟨rfl, by decide⟩

/-- The amended loop produces nothing once the running total has reached
the target, whatever fuel remains. -/
theorem amendedSeriesGo_eq_nil (measure : Nat → Nat) (avg targetSize : Nat)
    (fuel currentSize recordCount : Nat) (h : ¬ currentSize < targetSize) :
    amendedSeriesGo measure avg targetSize fuel currentSize recordCount = [] := by
  cases fuel <;> simp [amendedSeriesGo, h]

/-- The loop as the amended claim states it (stopping condition checked
at the head of each iteration) agrees with the source loop (early break
after the increment). -/
theorem amendedSeriesGo_eq_generateRecordsGo (measure : Nat → Nat)
    (avg targetSize : Nat) :
    ∀ (fuel currentSize recordCount : Nat),
      amendedSeriesGo measure avg targetSize fuel currentSize recordCount =
        generateRecordsGo measure avg targetSize fuel currentSize recordCount := by
  intro fuel
  induction fuel with
  | zero => intro currentSize recordCount; rfl
  | succ n ih =>
      intro currentSize recordCount
      by_cases h : currentSize < targetSize
      · simp only [amendedSeriesGo, generateRecordsGo, if_pos h]
        by_cases h2 : targetSize ≤ currentSize +
            (if recordCount % 20 = 0 then measure recordCount + 1 else avg + 1)
        · rw [if_pos h2, amendedSeriesGo_eq_nil]
          omega
        · rw [if_neg h2, ih]
      · simp [amendedSeriesGo, generateRecordsGo, h]

/-- Claim C4 counterexample: with records of constant serialized size
100 bytes and a target of 2122 bytes (≈ 2.07 KB, a valid size), the
series the claim describes (measured accrual without the separator
byte) has 22 records while `generateRecords` produces 21: the source
adds the measured size **plus one** on every 20th record, so its
running total reaches the target one record earlier. -/
theorem c4_counterexample :
    (claimedSeriesModel ts0 false (fun _ => d0) (fun _ => 100) 2122).length ≠
      (generateRecordsModel ts0 false (fun _ => d0) (fun _ => 100) 2122).length := by
  simp only [claimedSeriesModel, generateRecordsModel, List.length_map]
  decide

/-- Claim C4 as amended: the SeriesBuilder serializes record 0 to obtain
`avgSize`, sets the estimated count to `ceil(targetBytes / avgSize *
1.05)`, generates sequentially from index 1, accrues the exactly
measured serialized size **plus one separator byte** for every 20th
record and `avgSize + 1` for all others, stops as soon as the running
total reaches the target or the estimated count is reached, and returns
the series truncated to the records actually generated. -/
theorem c4_series_builder_amended :
    ∀ (ts : Nat → String) (useRandom : Bool) (ds : Nat → Draws)
      (measure : Nat → Nat) (targetSize : Nat),
      amendedSeriesModel ts useRandom ds measure targetSize =
        generateRecordsModel ts useRandom ds measure targetSize := by
  intro ts useRandom ds measure targetSize
  unfold amendedSeriesModel generateRecordsModel amendedSeriesIndices generateRecordsIndices
  simp only [amendedSeriesGo_eq_generateRecordsGo]

/-- Claim C5: the admission capacity is exactly 10 below 10240 KB, 5 in
[10240, 30720), 3 in [30720, 51200), 2 in [51200, 102400), and 5 at or
above 102400 KB; a request is admitted (counter incremented) iff the
in-flight count is strictly below that capacity, and otherwise it is
rejected immediately with a payload carrying the current count, the
computed capacity, and the requested size. -/
theorem c5_admission_tiering :
    ∀ (n : Nat) (sizeKB : ℚ),
      (sizeKB < 10240 → getMaxConcurrentForSize sizeKB = 10) ∧
      (10240 ≤ sizeKB → sizeKB < 30720 → getMaxConcurrentForSize sizeKB = 5) ∧
      (30720 ≤ sizeKB → sizeKB < 51200 → getMaxConcurrentForSize sizeKB = 3) ∧
      (51200 ≤ sizeKB → sizeKB < 102400 → getMaxConcurrentForSize sizeKB = 2) ∧
      (102400 ≤ sizeKB → getMaxConcurrentForSize sizeKB = 5) ∧
      (admitRequest n sizeKB = .inr (n + 1) ↔ n < getMaxConcurrentForSize sizeKB) ∧
      (getMaxConcurrentForSize sizeKB ≤ n →
        admitRequest n sizeKB =
          .inl { activeRequests := n,
                 maxAllowed := getMaxConcurrentForSize sizeKB,
                 requestSizeKB := sizeKB }) := by
  intro n sizeKB
  refine ⟨?_, ?_, ?_, ?_, ?_, ?_, ?_⟩
  · intro h; simp [getMaxConcurrentForSize, h]
  · intro h1 h2
    rw [getMaxConcurrentForSize, if_neg (by linarith), if_pos h2]
  · intro h1 h2
    rw [getMaxConcurrentForSize, if_neg (by linarith), if_neg (by linarith), if_pos h2]
  · intro h1 h2
    rw [getMaxConcurrentForSize, if_neg (by linarith), if_neg (by linarith),
      if_neg (by linarith), if_pos h2]
  · intro h
    rw [getMaxConcurrentForSize, if_neg (by linarith), if_neg (by linarith),
      if_neg (by linarith), if_neg (by linarith)]
  · rw [admitRequest]
    by_cases h : n ≥ getMaxConcurrentForSize sizeKB
    · simp only [if_pos h]
      constructor
      · intro hc; exact absurd hc (by simp)
      · intro hc; omega
    · simp only [if_neg h]
      constructor
      · intro _; omega
      · intro _; trivial
  · intro h
    rw [admitRequest, if_pos h]

/-- Witness for claim C5 at a concrete tier boundary: at 10239 KB the
capacity is 10, so with 9 requests in flight the tenth is admitted. -/
theorem c5_admission_tiering_witness :
    admitRequest 9 (10239 : ℚ) = .inr 10 := by
  have h := c5_admission_tiering 9 10239
  exact h.2.2.2.2.2.1.mpr (by rw [h.1 (by norm_num)]; norm_num)

/-- Claim C6 counterexample: the record produced at index 0 in
deterministic mode does **not** have both its nested metadata object and
its tag array freshly allocated — `array_tags` is handed out by
reference from the frozen `TAG_ARRAYS` pool. -/
theorem c6_counterexample :
    ¬ (((generateRecord ts0 0 false d0).object_metadata).isFresh = true ∧
       ((generateRecord ts0 0 false d0).array_tags).isFresh = true) := by
  intro h
  exact absurd h.2 (by simp [generateRecord, Alloc.isFresh])

/-- Claim C6 as amended: for every index and both modes, the nested
metadata object is freshly allocated on each call, while the tag array
is returned by reference from the process-lifetime `TAG_ARRAYS` pool
(never freshly allocated). -/
theorem c6_allocation_amended :
    ∀ (ts : Nat → String) (index : Nat) (useRandom : Bool) (d : Draws),
      ((generateRecord ts index useRandom d).object_metadata).isFresh = true ∧
      ((generateRecord ts index useRandom d).array_tags).isFresh = false := by
  intro ts index useRandom d
  exact ⟨rfl, rfl⟩

/-- Claim C7 counterexample: for shape 4 (array of positional-value
rows), wrapping a one-record series and extracting via the declared
JSONPath `$[*]` does **not** return the original record series — the
extracted element is the record's positional value array, not the
record object. -/
theorem c7_counterexample :
    extractByJSONPath 4 (applyStructure "T" [generateRecord ts0 0 false d0] 4) ≠
      [Record.toJson (generateRecord ts0 0 false d0)] := by
  intro h
  rw [show extractByJSONPath 4 (applyStructure "T" [generateRecord ts0 0 false d0] 4) =
      [Json.arr (generateRecord ts0 0 false d0).valuesList] from rfl] at h
  rw [show Record.toJson (generateRecord ts0 0 false d0) =
      Json.obj (recordKeys.zip (generateRecord ts0 0 false d0).valuesList) from rfl] at h
  injection h with h1 _
  exact Json.noConfusion h1

/-- Claim C7 as amended: for every record series, wrapping with shapes
1, 2, 3, 6, 7, 9 and extracting via the shape's declared JSONPath
returns exactly the original series (in order and value); for shape 4
the extraction returns each record's positional value array in the
canonical 14-field order, not the record objects themselves. -/
theorem c7_roundtrip_amended :
    ∀ (now : String) (records : List Record),
      extractByJSONPath 1 (applyStructure now records 1) = records.map Record.toJson ∧
      extractByJSONPath 2 (applyStructure now records 2) = records.map Record.toJson ∧
      extractByJSONPath 3 (applyStructure now records 3) = records.map Record.toJson ∧
      extractByJSONPath 6 (applyStructure now records 6) = records.map Record.toJson ∧
      extractByJSONPath 7 (applyStructure now records 7) = records.map Record.toJson ∧
      extractByJSONPath 9 (applyStructure now records 9) = records.map Record.toJson ∧
      extractByJSONPath 4 (applyStructure now records 4) =
        records.map (fun r => Json.arr r.valuesList) := by
  intro now records
  refine ⟨rfl, rfl, rfl, rfl, rfl, rfl, ?_⟩
  cases records with
  | nil => rfl
  | cons r rest => rfl

/-- Claim C8 (code_bug evidence): the `/json` route accepts a size of
0.5 KB — strictly between 0 and 1, hence outside the documented range
[1, MAX] — and serves it from the whole-document path, while 0 and
MAX + 1 are rejected as the claim states. -/
theorem c8_fractional_size_accepted :
    jsonRoute 1 1 (1/2) = .wholeDocumentResponse ∧
    jsonRoute 1 1 0 = .invalidSize ∧
    jsonRoute 1 1 1048577 = .invalidSize := by
  refine ⟨?_, ?_, ?_⟩ <;>
    norm_num [jsonRoute, maxSizeKB, streamingThresholdKB, supportsStreaming]

/-- Claim C9: in deterministic mode, `generateRecord` is a function of
the index and the fixed value pools alone — two calls with the same
index and timestamp pool return field-for-field identical records no
matter how the ambient random state (the would-be draws) differs
between the calls. -/
theorem c9_deterministic_reproducible :
    ∀ (ts : Nat → String) (index : Nat) (d1 d2 : Draws),
      generateRecord ts index false d1 = generateRecord ts index false d2 := by
  intro ts index d1 d2
  rfl

/-- Claim C10: a request of exactly 102400 KB fails the strictly
greater-than streaming test and is served from the whole-document
in-memory path (102401 KB streams), yet its admission capacity is 5 —
the tier justified by streaming — while 102399 KB gets the capacity-2
large-in-memory tier. -/
theorem c10_threshold_boundary :
    jsonRoute 1 1 102400 = .wholeDocumentResponse ∧
    jsonRoute 1 1 102401 = .streamedResponse ∧
    getMaxConcurrentForSize 102400 = 5 ∧
    getMaxConcurrentForSize 102399 = 2 := by
  refine ⟨?_, ?_, ?_, ?_⟩ <;>
    norm_num [jsonRoute, maxSizeKB, streamingThresholdKB, supportsStreaming,
      getMaxConcurrentForSize]
